import Mathlib

/-!
Verification development for the slide-narration pipeline in
src/streamlit_app.py.

The program is embedded shallowly.  External collaborators are passed in as
function parameters:

* the LLM completion service is a function from requests to
  results, with a string error on failure;
* the TTS service is a function from (script text, language code)
  to success or a string error;
* the uuid supply of the standard library is a function from the call index to
  an identifier string (uuid.uuid4 renders as a 36-character string);
* the system temp directory and the transient input-file path are string
  parameters.

Filesystem effects are made explicit: the audio generator returns, next to its
result, the list of files it created and the number of TTS calls it made, and
the top-level run records which files remain after the cleanup block.
-/

set_option autoImplicit false

namespace StreamlitApp

/-- A shape of a slide.  A python-pptx shape may or may not expose a text
attribute; the source guards each access with hasattr(shape, "text"), so a
shape is embedded as an optional text. -/
structure Shape where
  text? : Option String
deriving Repr, DecidableEq

/-- A slide is its ordered list of shapes. -/
structure Slide where
  shapes : List Shape
deriving Repr, DecidableEq

/-- A parsed presentation is its ordered list of slides.  Parsing the uploaded
byte blob is the document-library collaborator and is outside the embedding. -/
structure Presentation where
  slides : List Slide
deriving Repr, DecidableEq

/-- One request to the remote LLM service, as built by
ClaudePPTScriptGenerator.generate_slide_script: a model identifier, the
max_tokens bound, and the single user-role prompt. -/
structure LLMRequest where
  model : String
  max_tokens : Nat
  prompt : String
deriving Repr, DecidableEq

/-- The prompt template of generate_slide_script with the slide text embedded
verbatim (the f-string at lines 39-48 of the source). -/
def prompt_for (slide_text : String) : String :=
  "Create a professional, engaging presentation script for a slide with the following content:\n\nSlide Content: " ++ slide_text ++ "\n\nRequirements:\n- Write in a clear, confident speaking style\n- Provide context and explain key points\n- Use professional language suitable for business or academic presentations\n- Include transitions and highlights\n- Aim for about 2-3 sentences per slide"

/-- The script-generator object: the constructor stores the api key (as the
client credential) and the fixed model identifier. -/
structure ClaudePPTScriptGenerator where
  api_key : String
  model : String
deriving Repr, DecidableEq

/-- ClaudePPTScriptGenerator.__init__. -/
def ClaudePPTScriptGenerator.init (api_key : String) : ClaudePPTScriptGenerator :=
  { api_key := api_key, model := "claude-3-5-sonnet-20240620" }

/-- The request that generate_slide_script hands to client.messages.create:
the stored model, max_tokens 300, and the templated prompt. -/
def ClaudePPTScriptGenerator.request (g : ClaudePPTScriptGenerator)
    (slide_text : String) : LLMRequest :=
  { model := g.model, max_tokens := 300, prompt := prompt_for slide_text }

/-- ClaudePPTScriptGenerator.generate_slide_script.  The remote call is the
parameter llm.  On success the first content block text is returned; on any
exception the function returns the fallback string (the st.error notice is
presentation-layer and carries no data flow). -/
def ClaudePPTScriptGenerator.generate_slide_script (g : ClaudePPTScriptGenerator)
    (llm : LLMRequest → Except String String) (slide_text : String) : String :=
  match llm (g.request slide_text) with
  | .ok t => t
  | .error _ => "Slide content: " ++ slide_text

/-- extract_slide_text, with the two python accumulation loops rendered as
folds: for each slide, the texts of the shapes that expose a text attribute
are collected in order and joined with a single space. -/
def extract_slide_text (presentation : Presentation) : List String :=
  presentation.slides.foldl
    (fun slide_texts slide =>
      let slide_text := slide.shapes.foldl
        (fun acc shape =>
          match shape.text? with
          | some t => acc ++ [t]
          | none => acc) []
      slide_texts ++ [" ".intercalate slide_text]) []

/-- The filename built for the audio of slide number i (1-based) with unique
identifier u: the f-string slide_ i _ u .mp3 of source line 90. -/
def mk_audio_filename (i : Nat) (u : String) : String :=
  "slide_" ++ Nat.repr i ++ "_" ++ u ++ ".mp3"

/-- os.path.join for the shapes it takes here: the temp directory never ends
in a separator and the filename is relative, so join inserts one slash. -/
def os_path_join (d f : String) : String := d ++ "/" ++ f

/-- generate_audio over the scripts still to process, carrying the 1-based
slide number of the next script (enumerate(scripts, 1)).  Returns the result
(the path list, or the error of the first failing TTS call), the list of audio
files actually created on disk, and the number of TTS calls made.  A failing
call creates no file and stops the loop; files of earlier iterations stay. -/
def generate_audio (tts : String → String → Except String Unit)
    (uuid : Nat → String) (tmpdir voice : String) :
    List String → Nat → Except String (List String) × List String × Nat
  | [], _ => (.ok [], [], 0)
  | script :: rest, i =>
    let temp_audio_path := os_path_join tmpdir (mk_audio_filename i (uuid i))
    match tts script voice with
    | .ok _ =>
      match generate_audio tts uuid tmpdir voice rest (i + 1) with
      | (res, created, calls) =>
        (res.map (fun paths => temp_audio_path :: paths),
         temp_audio_path :: created, calls + 1)
    | .error e => (.error e, [], 1)

/-- The language selector mapping shown by the UI (voice_options). -/
def voice_options : List (String × String) :=
  [("English (US)", "en"), ("Spanish", "es"), ("French", "fr"),
   ("German", "de"), ("Italian", "it"), ("Portuguese", "pt")]

/-- Observable outcome of one started run of the pipeline body of main
(the code inside the gated if, lines 126-170). -/
structure RunResult where
  slide_texts : List String
  scripts : List String
  audio_result : Except String (List String)
  created_audio : List String
  files_created : List String
  remaining_files : List String
  rendered : Bool
  error_message : Option String
  llm_calls : Nat
  tts_calls : Nat
deriving Repr

/-- The tail of one started run of main, after the pipeline body has produced
the slide texts, the scripts and the outcome of generate_audio.  On a normal
return the results are displayed and the finally block unlinks the transient
input copy and every returned audio file.  On an exception the error is shown
(st.error, line 162) and the finally block unlinks only the transient input
copy: the local audio_files of main was never assigned, so the guard
"if audio_files in locals()" (line 168) skips the audio deletion loop. -/
def finish_run (tmp_input : String) (slide_texts scripts : List String)
    (out : Except String (List String) × List String × Nat) : RunResult :=
  match out with
  | (.ok audio_files, created, calls) =>
    { slide_texts := slide_texts, scripts := scripts,
      audio_result := .ok audio_files, created_audio := created,
      files_created := tmp_input :: created,
      remaining_files := (tmp_input :: created).filter
        (fun f => !(f == tmp_input || audio_files.contains f)),
      rendered := true, error_message := none,
      llm_calls := slide_texts.length, tts_calls := calls }
  | (.error e, created, calls) =>
    { slide_texts := slide_texts, scripts := scripts,
      audio_result := .error e, created_audio := created,
      files_created := tmp_input :: created,
      remaining_files := (tmp_input :: created).filter (fun f => !(f == tmp_input)),
      rendered := false, error_message := some ("An error occurred: " ++ e),
      llm_calls := slide_texts.length, tts_calls := calls }

/-- The body of main for one started run.  tmp_input is the transient copy of
the uploaded document (NamedTemporaryFile, line 130); pres is the presentation
the document library parsed from it.  The scripts loop appends one generated
script per slide text, in order. -/
def main_run (llm : LLMRequest → Except String String)
    (tts : String → String → Except String Unit) (uuid : Nat → String)
    (tmpdir tmp_input api_key : String) (pres : Presentation)
    (voice : String) : RunResult :=
  let script_generator := ClaudePPTScriptGenerator.init api_key
  let slide_texts := extract_slide_text pres
  let scripts := slide_texts.foldl
    (fun acc text => acc ++ [script_generator.generate_slide_script llm text]) []
  finish_run tmp_input slide_texts scripts
    (generate_audio tts uuid tmpdir voice scripts 1)

/-- The gate of main (line 125): the run body executes only when the button
was pressed, the api key is a non-empty (truthy) string, and a file was
uploaded; otherwise nothing at all happens. -/
def main (llm : LLMRequest → Except String String)
    (tts : String → String → Except String Unit) (uuid : Nat → String)
    (tmpdir tmp_input : String) (process_button : Bool) (api_key : String)
    (uploaded_file : Option Presentation) (voice : String) : Option RunResult :=
  match process_button, api_key == "", uploaded_file with
  | true, false, some pres =>
    some (main_run llm tts uuid tmpdir tmp_input api_key pres voice)
  | _, _, _ => none

/-- The externally observable side effects of a (possibly not started) run:
LLM calls made, TTS calls made, temp files created. -/
def runEffects : Option RunResult → Nat × Nat × List String
  | none => (0, 0, [])
  | some r => (r.llm_calls, r.tts_calls, r.files_created)

/-- Running the extractor twice on the same unmodified presentation, as a
pair of the two results. -/
def extract_twice (p : Presentation) : List String × List String :=
  (extract_slide_text p, extract_slide_text p)

/-- The text the specification ascribes to one slide: the texts of the shapes
that carry one, in shape order, joined by single spaces. -/
def spec_slide_text (sl : Slide) : String :=
  " ".intercalate (sl.shapes.filterMap Shape.text?)

/-- The audio path generated for slide number n of a run. -/
def audio_path (tmpdir : String) (uuid : Nat → String) (n : Nat) : String :=
  os_path_join tmpdir (mk_audio_filename n (uuid n))

/-- The script sequence a run computes: one generate_slide_script result per
extracted slide text, in slide order. -/
def run_scripts (llm : LLMRequest → Except String String) (api_key : String)
    (pres : Presentation) : List String :=
  (extract_slide_text pres).map
    ((ClaudePPTScriptGenerator.init api_key).generate_slide_script llm)

/-- An LLM collaborator that fails on every request. -/
def llmAllFail : LLMRequest → Except String String := fun _ => .error "quota"

/-- An LLM collaborator that always returns one fixed narration. -/
def llmOk : LLMRequest → Except String String := fun _ => .ok "Welcome."

/-- A TTS collaborator that always succeeds. -/
def ttsOk : String → String → Except String Unit := fun _ _ => .ok ()

/-- A TTS collaborator that fails exactly on the fallback script of the text B
and succeeds on everything else. -/
def ttsFailB : String → String → Except String Unit := fun s _ =>
  if s == "Slide content: B" then .error "boom" else .ok ()

/-- A constant identifier supply. -/
def uuidU : Nat → String := fun _ => "u"

/-- Another constant identifier supply. -/
def uuidV : Nat → String := fun _ => "v"

/-- An identifier supply that is injective, with one length, on the call
indices 1 and 2 of a two-script run. -/
def uuidAB : Nat → String := fun i => if i == 1 then "aa" else "bb"

/-- A two-slide presentation whose slides carry the texts A and B. -/
def presAB : Presentation :=
  { slides := [{ shapes := [{ text? := some "A" }] },
               { shapes := [{ text? := some "B" }] }] }

/-- The presentation with zero slides. -/
def presEmpty : Presentation := { slides := [] }

/-- A presentation exercising the extractor: the first slide has two
text-bearing shapes around one without text, the second slide has a single
shape without text. -/
def presMixed : Presentation :=
  { slides := [{ shapes := [{ text? := some "Intro" }, { text? := none },
                            { text? := some "Hello" }] },
               { shapes := [{ text? := none }] }] }

end StreamlitApp

namespace StreamlitApp

theorem foldl_append_singleton {α β : Type} (f : α → β) :
    ∀ (l : List α) (init : List β),
      l.foldl (fun acc x => acc ++ [f x]) init = init ++ l.map f
  | [], init => by simp
  | x :: xs, init => by
    simp [List.foldl_cons, foldl_append_singleton f xs]

theorem shapes_foldl_eq_filterMap :
    ∀ (shapes : List Shape) (init : List String),
      shapes.foldl
        (fun acc shape =>
          match shape.text? with
          | some t => acc ++ [t]
          | none => acc) init
        = init ++ shapes.filterMap Shape.text?
  | [], init => by simp
  | sh :: rest, init => by
    cases h : sh.text? <;>
      simp [List.foldl_cons, h, shapes_foldl_eq_filterMap rest, List.filterMap_cons]

theorem extract_slide_text_eq_map (p : Presentation) :
    extract_slide_text p = p.slides.map spec_slide_text := by
  have aux : ∀ (slides : List Slide) (init : List String),
      slides.foldl
        (fun slide_texts slide =>
          let slide_text := slide.shapes.foldl
            (fun acc shape =>
              match shape.text? with
              | some t => acc ++ [t]
              | none => acc) []
          slide_texts ++ [" ".intercalate slide_text]) init
        = init ++ slides.map spec_slide_text := by
    intro slides
    induction slides with
    | nil => intro init; simp
    | cons sl rest ih =>
      intro init
      simp only [List.foldl_cons, List.map_cons, ih]
      have hsh := shapes_foldl_eq_filterMap sl.shapes []
      simp only [List.nil_append] at hsh
      simp [spec_slide_text, hsh]
  simpa [extract_slide_text] using aux p.slides []

theorem finish_run_slide_texts (t : String) (sts scs : List String)
    (out : Except String (List String) × List String × Nat) :
    (finish_run t sts scs out).slide_texts = sts := by
  obtain ⟨res, created, calls⟩ := out
  cases res <;> rfl

theorem finish_run_scripts (t : String) (sts scs : List String)
    (out : Except String (List String) × List String × Nat) :
    (finish_run t sts scs out).scripts = scs := by
  obtain ⟨res, created, calls⟩ := out
  cases res <;> rfl

theorem finish_run_audio_result (t : String) (sts scs : List String)
    (out : Except String (List String) × List String × Nat) :
    (finish_run t sts scs out).audio_result = out.1 := by
  obtain ⟨res, created, calls⟩ := out
  cases res <;> rfl

theorem finish_run_created_audio (t : String) (sts scs : List String)
    (out : Except String (List String) × List String × Nat) :
    (finish_run t sts scs out).created_audio = out.2.1 := by
  obtain ⟨res, created, calls⟩ := out
  cases res <;> rfl

theorem finish_run_files_created (t : String) (sts scs : List String)
    (out : Except String (List String) × List String × Nat) :
    (finish_run t sts scs out).files_created = t :: out.2.1 := by
  obtain ⟨res, created, calls⟩ := out
  cases res <;> rfl

theorem finish_run_llm_calls (t : String) (sts scs : List String)
    (out : Except String (List String) × List String × Nat) :
    (finish_run t sts scs out).llm_calls = sts.length := by
  obtain ⟨res, created, calls⟩ := out
  cases res <;> rfl

theorem finish_run_tts_calls (t : String) (sts scs : List String)
    (out : Except String (List String) × List String × Nat) :
    (finish_run t sts scs out).tts_calls = out.2.2 := by
  obtain ⟨res, created, calls⟩ := out
  cases res <;> rfl

theorem finish_run_of_error (t : String) (sts scs : List String)
    (e : String) (created : List String) (calls : Nat) :
    finish_run t sts scs (.error e, created, calls) =
      { slide_texts := sts, scripts := scs,
        audio_result := .error e, created_audio := created,
        files_created := t :: created,
        remaining_files := (t :: created).filter (fun f => !(f == t)),
        rendered := false, error_message := some ("An error occurred: " ++ e),
        llm_calls := sts.length, tts_calls := calls } := rfl

theorem finish_run_of_ok (t : String) (sts scs : List String)
    (afs created : List String) (calls : Nat) :
    finish_run t sts scs (.ok afs, created, calls) =
      { slide_texts := sts, scripts := scs,
        audio_result := .ok afs, created_audio := created,
        files_created := t :: created,
        remaining_files := (t :: created).filter
          (fun f => !(f == t || afs.contains f)),
        rendered := true, error_message := none,
        llm_calls := sts.length, tts_calls := calls } := rfl

theorem main_run_eq (llm : LLMRequest → Except String String)
    (tts : String → String → Except String Unit) (uuid : Nat → String)
    (tmpdir tmp_input api_key : String) (pres : Presentation) (voice : String) :
    main_run llm tts uuid tmpdir tmp_input api_key pres voice =
      finish_run tmp_input (extract_slide_text pres)
        ((extract_slide_text pres).map
          ((ClaudePPTScriptGenerator.init api_key).generate_slide_script llm))
        (generate_audio tts uuid tmpdir voice
          ((extract_slide_text pres).map
            ((ClaudePPTScriptGenerator.init api_key).generate_slide_script llm)) 1) := by
  unfold main_run
  simp only [foldl_append_singleton, List.nil_append]

theorem range_succ_map_shift {α : Type} (P : Nat → α) (i0 n : Nat) :
    (List.range (n + 1)).map (fun k => P (i0 + k))
      = P i0 :: (List.range n).map (fun k => P (i0 + 1 + k)) := by
  rw [List.range_succ_eq_map, List.map_cons, List.map_map, Nat.add_zero]
  have hfun : ((fun k => P (i0 + k)) ∘ Nat.succ) = fun k => P (i0 + 1 + k) := by
    funext k
    show P (i0 + (k + 1)) = P (i0 + 1 + k)
    exact congrArg P (by omega)
  rw [hfun]

theorem generate_audio_ok (tts : String → String → Except String Unit)
    (uuid : Nat → String) (tmpdir voice : String) :
    ∀ (scripts : List String) (i0 : Nat) (afs created : List String) (calls : Nat),
      generate_audio tts uuid tmpdir voice scripts i0 = (.ok afs, created, calls) →
      afs = (List.range scripts.length).map (fun k => audio_path tmpdir uuid (i0 + k)) ∧
      created = afs ∧ calls = scripts.length ∧
      ∀ j (h : j < scripts.length), tts (scripts.get ⟨j, h⟩) voice = .ok () := by
  intro scripts
  induction scripts with
  | nil =>
    intro i0 afs created calls h
    simp only [generate_audio, Prod.mk.injEq, Except.ok.injEq] at h
    obtain ⟨h1, h2, h3⟩ := h
    subst h1; subst h2; subst h3
    exact ⟨by simp, by simp, by simp, fun j hj => absurd hj (by simp)⟩
  | cons s rest ih =>
    intro i0 afs created calls h
    simp only [generate_audio] at h
    cases htts : tts s voice with
    | error e => rw [htts] at h; simp at h
    | ok u =>
      cases u
      rw [htts] at h
      rcases hrec : generate_audio tts uuid tmpdir voice rest (i0 + 1)
        with ⟨res, created2, calls2⟩
      rw [hrec] at h
      cases res with
      | error e => simp [Except.map] at h
      | ok l =>
        simp only [Except.map, Prod.mk.injEq, Except.ok.injEq] at h
        obtain ⟨hafs, hcreated, hcalls⟩ := h
        obtain ⟨hl, hc2, hk2, hok⟩ := ih (i0 + 1) l created2 calls2 hrec
        subst hafs; subst hcreated; subst hcalls
        subst hl; subst hc2; subst hk2
        refine ⟨?_, rfl, by simp, ?_⟩
        · rw [List.length_cons, range_succ_map_shift (audio_path tmpdir uuid) i0]
          rfl
        · intro j hj
          match j with
          | 0 => exact htts
          | Nat.succ j => exact hok j (by simpa using hj)

theorem generate_audio_fails_at (tts : String → String → Except String Unit)
    (uuid : Nat → String) (tmpdir voice : String) :
    ∀ (scripts : List String) (i0 k : Nat) (hk : k < scripts.length) (e : String),
      (∀ j (hj : j < k), tts (scripts.get ⟨j, hj.trans hk⟩) voice = .ok ()) →
      tts (scripts.get ⟨k, hk⟩) voice = .error e →
      generate_audio tts uuid tmpdir voice scripts i0 =
        (.error e,
         (List.range k).map (fun t => audio_path tmpdir uuid (i0 + t)),
         k + 1) := by
  intro scripts
  induction scripts with
  | nil => intro i0 k hk; exact absurd hk (by simp)
  | cons s rest ih =>
    intro i0 k hk e hok hfail
    match k with
    | 0 =>
      simp only [List.get] at hfail
      simp [generate_audio, hfail]
    | Nat.succ k =>
      have h0 : tts s voice = .ok () := hok 0 (Nat.succ_pos k)
      have hk' : k < rest.length := by simpa using hk
      have hrec := ih (i0 + 1) k hk' e
        (fun j hj => hok (j + 1) (by omega))
        (by simpa using hfail)
      simp only [generate_audio, h0, hrec, Except.map]
      rw [range_succ_map_shift (audio_path tmpdir uuid) i0]
      rfl

theorem string_append_cancel_left {a b c : String} (h : a ++ b = a ++ c) : b = c := by
  apply String.ext
  have hd := congrArg String.data h
  simp only [String.data_append] at hd
  exact List.append_cancel_left hd

theorem mk_audio_filename_inj {i j : Nat} {u v : String}
    (hlen : u.length = v.length)
    (h : mk_audio_filename i u = mk_audio_filename j v) :
    Nat.repr i = Nat.repr j ∧ u = v := by
  have hd := congrArg String.data h
  simp only [mk_audio_filename, String.data_append] at hd
  have h1 := List.append_inj' hd rfl
  have hlen' : u.data.length = v.data.length := hlen
  have h2 := List.append_inj' h1.1 hlen'
  have h3 := List.append_inj' h2.1 rfl
  have hrepr : (Nat.repr i).data = (Nat.repr j).data := List.append_cancel_left h3.1
  exact ⟨String.ext hrepr, String.ext h2.2⟩

theorem os_path_join_inj_right {d f g : String}
    (h : os_path_join d f = os_path_join d g) : f = g :=
  string_append_cancel_left h

theorem mk_audio_filename_ne_of_uuid_ne {i j : Nat} {u v : String}
    (hlen : u.length = v.length) (hne : u ≠ v) :
    mk_audio_filename i u ≠ mk_audio_filename j v :=
  fun h => hne (mk_audio_filename_inj hlen h).2

theorem audio_path_uuid_eq {tmpdir : String} {uuid : Nat → String} {m n : Nat}
    (hlen : (uuid m).length = (uuid n).length)
    (h : audio_path tmpdir uuid m = audio_path tmpdir uuid n) :
    uuid m = uuid n :=
  (mk_audio_filename_inj hlen (os_path_join_inj_right h)).2

theorem finish_run_rendered (t : String) (sts scs : List String)
    (out : Except String (List String) × List String × Nat) :
    (finish_run t sts scs out).rendered = out.1.isOk := by
  obtain ⟨res, created, calls⟩ := out
  cases res <;> rfl

theorem generate_audio_of_all_ok (tts : String → String → Except String Unit)
    (uuid : Nat → String) (tmpdir voice : String)
    (htts : ∀ s v, tts s v = .ok ()) :
    ∀ (scripts : List String) (i0 : Nat),
      generate_audio tts uuid tmpdir voice scripts i0 =
        (.ok ((List.range scripts.length).map (fun k => audio_path tmpdir uuid (i0 + k))),
         (List.range scripts.length).map (fun k => audio_path tmpdir uuid (i0 + k)),
         scripts.length)
  | [], i0 => by simp [generate_audio]
  | s :: rest, i0 => by
    simp only [generate_audio, htts s voice,
      generate_audio_of_all_ok tts uuid tmpdir voice htts rest (i0 + 1), Except.map]
    rw [List.length_cons, range_succ_map_shift (audio_path tmpdir uuid) i0]
    rfl

theorem shift_one {α : Type} (P : Nat → α) :
    (fun k => P (1 + k)) = fun k => P (k + 1) := by
  funext k
  exact congrArg P (Nat.add_comm 1 k)

/-- C4: Extractor contract: for every presentation with N slides,
extract_slide_text returns exactly N strings in slide order; the string for
each slide is the single-space join of the texts of the shapes that expose a
text attribute (empty texts included), shapes without a text attribute are
skipped without error, and a slide with no text-bearing shape yields the
empty string rather than being omitted. -/
theorem C4_extractor_contract (p : Presentation) :
    (extract_slide_text p).length = p.slides.length ∧
    extract_slide_text p
      = p.slides.map (fun sl => " ".intercalate (sl.shapes.filterMap Shape.text?)) ∧
    (∀ sl : Slide, sl.shapes.filterMap Shape.text? = []
      → " ".intercalate (sl.shapes.filterMap Shape.text?) = "") := by
  have hm := extract_slide_text_eq_map p
  refine ⟨by rw [hm, List.length_map], by rw [hm]; rfl, ?_⟩
  intro sl h
  rw [h]
  rfl

/-- Witness for C4: on a concrete presentation the extractor returns one
entry per slide, joins the two texts of the first slide with one space, and
yields the empty string for the textless second slide. -/
theorem C4_extractor_contract_witness :
    (extract_slide_text presMixed).length = presMixed.slides.length ∧
    extract_slide_text presMixed = ["Intro Hello", ""] := by
  refine ⟨(C4_extractor_contract presMixed).1, ?_⟩
  rw [(C4_extractor_contract presMixed).2.1]
  rfl

/-- C9: Extractor idempotence and determinism: running the extractor twice on
the same unmodified presentation yields identical text sequences; each run
equals the pure function of the slides. -/
theorem C9_extractor_idempotent (p : Presentation) :
    (extract_twice p).1 = (extract_twice p).2 ∧
    (extract_twice p).1 = extract_slide_text p :=
  ⟨rfl, rfl⟩

/-- C10: Fixed LLM request parameters: every request generate_slide_script
issues uses the constant model identifier claude-3-5-sonnet-20240620 and the
constant max_tokens cap 300, for every constructed generator and every slide
text, and the call consults the LLM exactly at that request. -/
theorem C10_fixed_llm_request_params (api_key slide_text : String)
    (llm : LLMRequest → Except String String) :
    ((ClaudePPTScriptGenerator.init api_key).request slide_text).model
        = "claude-3-5-sonnet-20240620" ∧
    ((ClaudePPTScriptGenerator.init api_key).request slide_text).max_tokens = 300 ∧
    (ClaudePPTScriptGenerator.init api_key).generate_slide_script llm slide_text
      = match llm ((ClaudePPTScriptGenerator.init api_key).request slide_text) with
        | .ok t => t
        | .error _ => "Slide content: " ++ slide_text :=
  ⟨rfl, rfl, rfl⟩

/-- C2: Degrade-not-fail for scripting: when the LLM call fails on the
request built for a slide text, generate_slide_script returns exactly the
fallback string Slide content: plus the slide text; with an always-failing
LLM the run computes the fallback script of every slide and, the TTS
collaborator working, still reaches rendering. -/
theorem C2_scripting_degrades_not_fails
    (llm : LLMRequest → Except String String)
    (tts : String → String → Except String Unit) (uuid : Nat → String)
    (tmpdir tmp_input api_key voice : String) (pres : Presentation)
    (hllm : ∀ req, ∃ e, llm req = .error e)
    (htts : ∀ s v, tts s v = .ok ()) :
    (∀ (g : ClaudePPTScriptGenerator) (t : String),
        g.generate_slide_script llm t = "Slide content: " ++ t) ∧
    (main_run llm tts uuid tmpdir tmp_input api_key pres voice).scripts
      = (extract_slide_text pres).map (fun t => "Slide content: " ++ t) ∧
    (main_run llm tts uuid tmpdir tmp_input api_key pres voice).rendered = true := by
  have hgen : ∀ (g : ClaudePPTScriptGenerator) (t : String),
      g.generate_slide_script llm t = "Slide content: " ++ t := by
    intro g t
    obtain ⟨e, he⟩ := hllm (g.request t)
    simp [ClaudePPTScriptGenerator.generate_slide_script, he]
  refine ⟨hgen, ?_, ?_⟩
  · rw [main_run_eq, finish_run_scripts]
    exact List.map_congr_left fun t _ => hgen _ t
  · rw [main_run_eq, finish_run_rendered,
      generate_audio_of_all_ok tts uuid tmpdir voice htts]
    rfl

/-- Witness for C2 at an always-failing LLM, a working TTS and the two-slide
presentation: both scripts are the fallback and the run renders. -/
theorem C2_scripting_degrades_not_fails_witness :
    (∀ req, ∃ e, llmAllFail req = Except.error e) ∧
    (∀ s v, ttsOk s v = Except.ok ()) ∧
    (main_run llmAllFail ttsOk uuidU "/tmp" "/tmp/in.pptx" "key" presAB "en").scripts
      = ["Slide content: A", "Slide content: B"] ∧
    (main_run llmAllFail ttsOk uuidU "/tmp" "/tmp/in.pptx" "key" presAB "en").rendered
      = true := by
  have h := C2_scripting_degrades_not_fails llmAllFail ttsOk uuidU
    "/tmp" "/tmp/in.pptx" "key" "en" presAB
    (fun req => ⟨"quota", rfl⟩) (fun s v => rfl)
  refine ⟨fun req => ⟨"quota", rfl⟩, fun s v => rfl, ?_, h.2.2⟩
  rw [h.2.1]
  rfl

/-- C6: Input gating: unless the trigger is pressed with both a non-empty
credential and an uploaded document present, main performs no work: no run
result exists, so no LLM call, no TTS call and no temp file. -/
theorem C6_input_gating (llm : LLMRequest → Except String String)
    (tts : String → String → Except String Unit) (uuid : Nat → String)
    (tmpdir tmp_input : String) (process_button : Bool) (api_key : String)
    (uploaded_file : Option Presentation) (voice : String)
    (h : ¬(process_button = true ∧ api_key ≠ "" ∧ uploaded_file.isSome = true)) :
    main llm tts uuid tmpdir tmp_input process_button api_key uploaded_file voice
      = none ∧
    runEffects
      (main llm tts uuid tmpdir tmp_input process_button api_key uploaded_file voice)
      = (0, 0, []) := by
  have hnone : main llm tts uuid tmpdir tmp_input process_button api_key
      uploaded_file voice = none := by
    unfold main
    cases process_button with
    | false => cases api_key == "" <;> cases uploaded_file <;> rfl
    | true =>
      cases hk : api_key == "" with
      | true => cases uploaded_file <;> rfl
      | false =>
        cases uploaded_file with
        | none => rfl
        | some pres => exact absurd ⟨rfl, ne_of_beq_false hk, rfl⟩ h
  rw [hnone]
  exact ⟨rfl, rfl⟩

/-- Witness for C6: with the trigger not pressed, even with a credential and
an uploaded document, nothing runs. -/
theorem C6_input_gating_witness :
    ¬(false = true ∧ "key" ≠ "" ∧ (some presAB).isSome = true) ∧
    main llmOk ttsOk uuidU "/tmp" "/tmp/in.pptx" false "key" (some presAB) "en"
      = none := by
  have hh : ¬(false = true ∧ "key" ≠ "" ∧ (some presAB).isSome = true) :=
    fun hc => Bool.false_ne_true hc.1
  exact ⟨hh,
    (C6_input_gating llmOk ttsOk uuidU "/tmp" "/tmp/in.pptx" false "key"
      (some presAB) "en" hh).1⟩

/-- C7: Empty-presentation degeneracy: a presentation with zero slides is not
an error: the run produces empty script and audio sequences, makes no LLM and
no TTS call, renders normally, and cleanup leaves zero files of the run on
disk. -/
theorem C7_empty_presentation (llm : LLMRequest → Except String String)
    (tts : String → String → Except String Unit) (uuid : Nat → String)
    (tmpdir tmp_input api_key voice : String) (pres : Presentation)
    (h : pres.slides = []) :
    main_run llm tts uuid tmpdir tmp_input api_key pres voice =
      { slide_texts := [], scripts := [], audio_result := .ok [],
        created_audio := [], files_created := [tmp_input],
        remaining_files := [], rendered := true, error_message := none,
        llm_calls := 0, tts_calls := 0 } := by
  obtain ⟨slides⟩ := pres
  have h' : slides = [] := h
  subst h'
  simp [main_run, extract_slide_text, generate_audio, finish_run]

/-- Witness for C7 at the concrete empty presentation. -/
theorem C7_empty_presentation_witness :
    presEmpty.slides = [] ∧
    main_run llmOk ttsOk uuidU "/tmp" "/tmp/in.pptx" "key" presEmpty "en" =
      { slide_texts := [], scripts := [], audio_result := .ok [],
        created_audio := [], files_created := ["/tmp/in.pptx"],
        remaining_files := [], rendered := true, error_message := none,
        llm_calls := 0, tts_calls := 0 } :=
  ⟨rfl, C7_empty_presentation llmOk ttsOk uuidU "/tmp" "/tmp/in.pptx" "key" "en"
    presEmpty rfl⟩

/-- C5: Alignment invariant: in every run whose synthesis completes, the
slide texts, the scripts and the audio paths have matching lengths and are
index-aligned: the scripts are the per-index images of the slide texts under
the script generator, the audio path at index k is the file generated at the
k-th TTS call, and that call was made on the script at index k. -/
theorem C5_alignment_invariant
    (llm : LLMRequest → Except String String)
    (tts : String → String → Except String Unit) (uuid : Nat → String)
    (tmpdir tmp_input api_key voice : String) (pres : Presentation)
    (afs : List String)
    (hok : (main_run llm tts uuid tmpdir tmp_input api_key pres voice).audio_result
      = .ok afs) :
    (main_run llm tts uuid tmpdir tmp_input api_key pres voice).scripts
      = (main_run llm tts uuid tmpdir tmp_input api_key pres voice).slide_texts.map
          ((ClaudePPTScriptGenerator.init api_key).generate_slide_script llm) ∧
    (main_run llm tts uuid tmpdir tmp_input api_key pres voice).scripts.length
      = (main_run llm tts uuid tmpdir tmp_input api_key pres voice).slide_texts.length ∧
    afs.length
      = (main_run llm tts uuid tmpdir tmp_input api_key pres voice).scripts.length ∧
    afs = (List.range
        (main_run llm tts uuid tmpdir tmp_input api_key pres voice).scripts.length).map
          (fun k => audio_path tmpdir uuid (k + 1)) ∧
    ∀ j (hj : j <
        (main_run llm tts uuid tmpdir tmp_input api_key pres voice).scripts.length),
      tts ((main_run llm tts uuid tmpdir tmp_input api_key pres voice).scripts.get
        ⟨j, hj⟩) voice = .ok () := by
  have hs : (main_run llm tts uuid tmpdir tmp_input api_key pres voice).scripts
      = (extract_slide_text pres).map
          ((ClaudePPTScriptGenerator.init api_key).generate_slide_script llm) := by
    rw [main_run_eq, finish_run_scripts]
  have hst : (main_run llm tts uuid tmpdir tmp_input api_key pres voice).slide_texts
      = extract_slide_text pres := by
    rw [main_run_eq, finish_run_slide_texts]
  rw [main_run_eq, finish_run_audio_result] at hok
  rcases hga : generate_audio tts uuid tmpdir voice
      ((extract_slide_text pres).map
        ((ClaudePPTScriptGenerator.init api_key).generate_slide_script llm)) 1
    with ⟨res, created, calls⟩
  rw [hga] at hok
  replace hok : res = .ok afs := hok
  subst hok
  obtain ⟨hafs, hcreated, hcalls, htts⟩ :=
    generate_audio_ok tts uuid tmpdir voice _ 1 afs created calls hga
  rw [hs, hst]
  refine ⟨rfl, List.length_map _ _, ?_, ?_, htts⟩
  · rw [hafs]
    simp
  · rw [hafs, shift_one (audio_path tmpdir uuid)]

/-- Witness for C5 at a concrete successful run of the two-slide
presentation. -/
theorem C5_alignment_invariant_witness :
    (main_run llmOk ttsOk uuidU "/tmp" "/tmp/in.pptx" "key" presAB "en").audio_result
      = Except.ok ["/tmp/slide_1_u.mp3", "/tmp/slide_2_u.mp3"] ∧
    (["/tmp/slide_1_u.mp3", "/tmp/slide_2_u.mp3"] : List String).length
      = (main_run llmOk ttsOk uuidU "/tmp" "/tmp/in.pptx" "key" presAB "en").scripts.length := by
  have h := C5_alignment_invariant llmOk ttsOk uuidU "/tmp" "/tmp/in.pptx" "key"
    "en" presAB ["/tmp/slide_1_u.mp3", "/tmp/slide_2_u.mp3"] rfl
  exact ⟨rfl, h.2.2.1⟩

/-- C8: Audio artifact naming: on a successful run over any script list, the
returned paths are, in order and index-aligned with the scripts, files of the
system temp directory named by the fixed per-script index prefix, the unique
identifier of that call, and the fixed mp3 extension; the paths of one run
are pairwise distinct when the identifier supply is injective over the run,
and any two filenames built from distinct identifiers of one length differ,
whatever their indices. -/
theorem C8_audio_artifact_naming
    (tts : String → String → Except String Unit) (uuid : Nat → String)
    (tmpdir voice : String) (scripts afs created : List String) (calls : Nat)
    (hok : generate_audio tts uuid tmpdir voice scripts 1 = (.ok afs, created, calls))
    (hlen : ∀ i j, i < scripts.length → j < scripts.length →
      (uuid (i + 1)).length = (uuid (j + 1)).length)
    (hinj : ∀ i j, i < scripts.length → j < scripts.length →
      uuid (i + 1) = uuid (j + 1) → i = j) :
    afs = (List.range scripts.length).map
        (fun k => os_path_join tmpdir (mk_audio_filename (k + 1) (uuid (k + 1)))) ∧
    afs.Nodup ∧
    (∀ (i j : Nat) (u v : String), u.length = v.length → u ≠ v →
      mk_audio_filename i u ≠ mk_audio_filename j v) := by
  obtain ⟨hafs, hcreated, hcalls, _⟩ :=
    generate_audio_ok tts uuid tmpdir voice scripts 1 afs created calls hok
  have hafs' : afs = (List.range scripts.length).map
      (fun k => audio_path tmpdir uuid (k + 1)) := by
    rw [hafs, shift_one (audio_path tmpdir uuid)]
  refine ⟨hafs', ?_, fun i j u v hl hne => mk_audio_filename_ne_of_uuid_ne hl hne⟩
  rw [hafs']
  refine List.Nodup.map_on ?_ (List.nodup_range _)
  intro x hx y hy hxy
  rw [List.mem_range] at hx hy
  exact hinj x y hx hy (audio_path_uuid_eq (hlen x y hx hy) hxy)

/-- Witness for C8 at two concrete scripts and an identifier supply that is
injective with one length on the run: the two paths are distinct and aligned. -/
theorem C8_audio_artifact_naming_witness :
    generate_audio ttsOk uuidAB "/tmp" "en" ["sA", "sB"] 1
      = (Except.ok ["/tmp/slide_1_aa.mp3", "/tmp/slide_2_bb.mp3"],
         ["/tmp/slide_1_aa.mp3", "/tmp/slide_2_bb.mp3"], 2) ∧
    (["/tmp/slide_1_aa.mp3", "/tmp/slide_2_bb.mp3"] : List String).Nodup := by
  have hlen : ∀ i j, i < (["sA", "sB"] : List String).length →
      j < (["sA", "sB"] : List String).length →
      (uuidAB (i + 1)).length = (uuidAB (j + 1)).length := by
    intro i j hi hj
    have hi2 : i < 2 := hi
    have hj2 : j < 2 := hj
    interval_cases i <;> interval_cases j <;> rfl
  have hinj : ∀ i j, i < (["sA", "sB"] : List String).length →
      j < (["sA", "sB"] : List String).length →
      uuidAB (i + 1) = uuidAB (j + 1) → i = j := by
    intro i j hi hj hu
    have hi2 : i < 2 := hi
    have hj2 : j < 2 := hj
    interval_cases i <;> interval_cases j <;> revert hu <;> decide
  exact ⟨rfl,
    (C8_audio_artifact_naming ttsOk uuidAB "/tmp" "en" ["sA", "sB"]
      ["/tmp/slide_1_aa.mp3", "/tmp/slide_2_bb.mp3"]
      ["/tmp/slide_1_aa.mp3", "/tmp/slide_2_bb.mp3"] 2 rfl hlen hinj).2.1⟩

/-- C3 (amended): TTS failure is fatal and propagates: if the TTS
collaborator fails on the k-th script, the earlier calls succeeding, the
failure is raised out of generate_audio to main, the run does not reach
rendering, the underlying error message is surfaced to the user, and the run
proceeds to the cleanup block, which removes the input copy; generate_audio
returns no partial path list, but the audio files of the k preceding scripts
were already created, and cleanup does not remove them. -/
theorem C3_tts_failure_fatal
    (llm : LLMRequest → Except String String)
    (tts : String → String → Except String Unit) (uuid : Nat → String)
    (tmpdir tmp_input api_key voice : String) (pres : Presentation)
    (k : Nat) (e : String)
    (hk : k < (run_scripts llm api_key pres).length)
    (hfirst : ∀ j (hj : j < k),
      tts ((run_scripts llm api_key pres).get ⟨j, hj.trans hk⟩) voice = .ok ())
    (hfail : tts ((run_scripts llm api_key pres).get ⟨k, hk⟩) voice = .error e) :
    (main_run llm tts uuid tmpdir tmp_input api_key pres voice).rendered = false ∧
    (main_run llm tts uuid tmpdir tmp_input api_key pres voice).error_message
      = some ("An error occurred: " ++ e) ∧
    (main_run llm tts uuid tmpdir tmp_input api_key pres voice).audio_result
      = .error e ∧
    (main_run llm tts uuid tmpdir tmp_input api_key pres voice).created_audio
      = (List.range k).map (fun t => audio_path tmpdir uuid (t + 1)) ∧
    (main_run llm tts uuid tmpdir tmp_input api_key pres voice).remaining_files
      = ((List.range k).map (fun t => audio_path tmpdir uuid (t + 1))).filter
          (fun f => !(f == tmp_input)) := by
  have hga := generate_audio_fails_at tts uuid tmpdir voice
    (run_scripts llm api_key pres) 1 k hk e hfirst hfail
  have hga' : generate_audio tts uuid tmpdir voice
      ((extract_slide_text pres).map
        ((ClaudePPTScriptGenerator.init api_key).generate_slide_script llm)) 1
      = (.error e, (List.range k).map (fun t => audio_path tmpdir uuid (1 + t)),
         k + 1) := hga
  rw [main_run_eq, hga', finish_run_of_error]
  refine ⟨rfl, rfl, rfl, ?_, ?_⟩
  · show (List.range k).map (fun t => audio_path tmpdir uuid (1 + t))
      = (List.range k).map (fun t => audio_path tmpdir uuid (t + 1))
    rw [shift_one (audio_path tmpdir uuid)]
  · show (tmp_input :: (List.range k).map (fun t => audio_path tmpdir uuid (1 + t))).filter
        (fun f => !(f == tmp_input))
      = ((List.range k).map (fun t => audio_path tmpdir uuid (t + 1))).filter
          (fun f => !(f == tmp_input))
    rw [shift_one (audio_path tmpdir uuid)]
    simp [List.filter_cons]

/-- Witness for C3 at a concrete run: the TTS collaborator succeeds on the
first fallback script and fails on the second; the run aborts, surfaces the
message, and created exactly the first audio file. -/
theorem C3_tts_failure_fatal_witness :
    ttsFailB ((run_scripts llmAllFail "key" presAB).get ⟨1, by decide⟩) "en"
      = Except.error "boom" ∧
    (main_run llmAllFail ttsFailB uuidV "/tmp" "/tmp/in.pptx" "key" presAB "en").rendered
      = false ∧
    (main_run llmAllFail ttsFailB uuidV "/tmp" "/tmp/in.pptx" "key" presAB "en").error_message
      = some "An error occurred: boom" ∧
    (main_run llmAllFail ttsFailB uuidV "/tmp" "/tmp/in.pptx" "key" presAB "en").created_audio
      = ["/tmp/slide_1_v.mp3"] := by
  have hk : (1 : Nat) < (run_scripts llmAllFail "key" presAB).length := by decide
  have hfirst : ∀ j (hj : j < 1),
      ttsFailB ((run_scripts llmAllFail "key" presAB).get ⟨j, hj.trans hk⟩) "en"
        = .ok () := by
    intro j hj
    interval_cases j
    rfl
  have h := C3_tts_failure_fatal llmAllFail ttsFailB uuidV "/tmp" "/tmp/in.pptx"
    "key" "en" presAB 1 "boom" hk hfirst rfl
  refine ⟨rfl, h.1, ?_, ?_⟩
  · rw [h.2.1]
    rfl
  · rw [h.2.2.2.1]
    rfl

/-- C3 counterexample to the claim as stated: a run aborted by a TTS failure
on the second script did produce partial audio: the file of the first script
was created before the failure. -/
theorem C3_partial_audio_counterexample :
    (main_run llmAllFail ttsFailB uuidV "/tmp" "/tmp/in.pptx" "key" presAB "en").audio_result
      = Except.error "boom" ∧
    (main_run llmAllFail ttsFailB uuidV "/tmp" "/tmp/in.pptx" "key" presAB "en").created_audio
      = ["/tmp/slide_1_v.mp3"] ∧
    (main_run llmAllFail ttsFailB uuidV "/tmp" "/tmp/in.pptx" "key" presAB "en").created_audio
      ≠ [] := by
  refine ⟨rfl, rfl, ?_⟩
  decide

/-- C1: cleanup is not total on a TTS abort: in a run aborted by a TTS
failure on the second script, the run created the input copy and one audio
file, and after the cleanup block the audio file of the first script is still
present: the local audio_files of main was never assigned, so the guarded
deletion loop of the finally block never ran. -/
theorem C1_cleanup_leak :
    (main_run llmAllFail ttsFailB uuidU "/tmp" "/tmp/in.pptx" "key" presAB "en").files_created
      = ["/tmp/in.pptx", "/tmp/slide_1_u.mp3"] ∧
    (main_run llmAllFail ttsFailB uuidU "/tmp" "/tmp/in.pptx" "key" presAB "en").remaining_files
      = ["/tmp/slide_1_u.mp3"] ∧
    (main_run llmAllFail ttsFailB uuidU "/tmp" "/tmp/in.pptx" "key" presAB "en").remaining_files
      ≠ [] := by
  refine ⟨rfl, rfl, ?_⟩
  decide

end StreamlitApp
